import Mathlib

/-!
Verification of the Tooley lesson-plan generator (src/api.py and src/bot.py)
against its natural-language specification.

The development shallowly embeds the string-processing core of the two
source files: prompt building, line classification for the PDF and HTML
renderers, the ASCII sanitizers, the persistence write lists, and the
relevant Telegram handler fragments.  Python strings are modelled as
`List Char`; Python exceptions as `Except`; the external services
(Telegram, the Claude API, GitHub, fpdf page emission) as explicit
oracle parameters.
-/

set_option maxRecDepth 400000

/-- Characters of a string literal, the working representation of Python strings. -/
def chs (s : String) : List Char := s.data

/-- Whitespace set of Python str.strip() restricted to the ASCII range
(the source never strips non-ASCII whitespace in the scenarios modelled). -/
def pyIsSpace (c : Char) : Bool :=
  c = ' ' || c = '\t' || c = '\n' || c = '\x0d' || c = '\x0b' || c = '\x0c'

/-- Python str.strip(): drop leading and trailing whitespace. -/
def pyStrip (s : List Char) : List Char :=
  ((s.dropWhile pyIsSpace).reverse.dropWhile pyIsSpace).reverse

/-- Python str.strip(chr): here only needed for line.strip(chr(42)). -/
def pyStripStar (s : List Char) : List Char :=
  ((s.dropWhile (· = '*')).reverse.dropWhile (· = '*')).reverse

/-- Python str.split(sep) for a one-character separator, keeping empty pieces. -/
def pySplitCh (sep : Char) : List Char → List (List Char)
  | [] => [[]]
  | c :: t =>
    if c = sep then [] :: pySplitCh sep t
    else
      match pySplitCh sep t with
      | [] => [[c]]
      | h :: r => (c :: h) :: r

/-- ASCII lower-casing of one character, the fragment of Python str.lower()
exercised by the source (comparisons against the ASCII word "skip"). -/
def pyLowerChar (c : Char) : Char :=
  if 65 ≤ c.toNat && c.toNat ≤ 90 then Char.ofNat (c.toNat + 32) else c

/-- Python str.lower() on the ASCII range. -/
def pyLower (s : List Char) : List Char := s.map pyLowerChar

/-- Python str.isdigit() on the ASCII range (the source only meets ASCII digits). -/
def pyIsDigit (c : Char) : Bool := 48 ≤ c.toNat && c.toNat ≤ 57

/-- Value of an ASCII digit. -/
def digitVal (c : Char) : Nat := c.toNat - 48

/-- Digit tail of a Python int literal: digits with single underscores allowed
between digits, as accepted by Python int(). -/
def pyDigitsGo (acc : Nat) : List Char → Option Nat
  | [] => some acc
  | '_' :: d :: t => if pyIsDigit d then pyDigitsGo (acc * 10 + digitVal d) t else none
  | ['_'] => none
  | d :: t => if pyIsDigit d then pyDigitsGo (acc * 10 + digitVal d) t else none

/-- Nonempty digit string for Python int(). -/
def pyDigits : List Char → Option Nat
  | [] => none
  | d :: t => if pyIsDigit d then pyDigitsGo (digitVal d) t else none

/-- Python int(str): surrounding whitespace stripped, optional sign, decimal
digits (ASCII); `none` models the ValueError raised on anything else. -/
def pyInt? (s : List Char) : Option Int :=
  match pyStrip s with
  | '+' :: r => (pyDigits r).map Int.ofNat
  | '-' :: r => (pyDigits r).map (fun n => -(n : Int))
  | r => (pyDigits r).map Int.ofNat

/-- Decimal rendering of an integer, for f-string interpolation of int values. -/
def intChs (n : Int) : List Char := (toString n).data

/-- Fuel-indexed scan of Python str.replace: with fuel at least the length of
the text (and a nonempty pattern) this is exactly the left-to-right
non-overlapping replacement; structural recursion on the fuel keeps the
function reducible by the kernel. -/
def replaceGo (old new : List Char) : Nat → List Char → List Char
  | _, [] => []
  | 0, s => s
  | Nat.succ f, c :: t =>
    if old.isPrefixOf (c :: t) then
      new ++ replaceGo old new f (List.drop old.length (c :: t))
    else c :: replaceGo old new f t

/-- Python str.replace(old, new): replace every non-overlapping occurrence,
scanning left to right.  (The source never calls it with an empty `old`.) -/
def replaceAll (old new : List Char) (s : List Char) : List Char :=
  if old = [] then s else replaceGo old new s.length s

/-- Apply a replacement table in order, as the Python loops over dict items do. -/
def applyTable (tbl : List (List Char × List Char)) (s : List Char) : List Char :=
  tbl.foldl (fun acc p => replaceAll p.1 p.2 acc) s

/-- Python "sep".join(parts). -/
def joinSep (sep : List Char) : List (List Char) → List Char
  | [] => []
  | [x] => x
  | x :: y :: r => x ++ sep ++ joinSep sep (y :: r)

/-- Boolean substring test: pat occurs somewhere in s. -/
def containsSub (pat : List Char) (s : List Char) : Bool :=
  pat.isPrefixOf s ||
    match s with
    | [] => false
    | _ :: t => containsSub pat t

/-- Remainder of s after the first occurrence of pat, if any. -/
def dropAfter (pat : List Char) (s : List Char) : Option (List Char) :=
  if pat.isPrefixOf s then some (s.drop pat.length)
  else
    match s with
    | [] => none
    | _ :: t => dropAfter pat t

/-- All patterns occur in s, in the given order (later searches resume after
the previous match). -/
def orderedPats : List (List Char) → List Char → Bool
  | [], _ => true
  | p :: ps, s =>
    match dropAfter p s with
    | some rest => orderedPats ps rest
    | none => false

/-- Tail-recursive occurrence counter (acc plus the number of positions of s
at which pat begins). -/
def countOccurGo (pat : List Char) (acc : Nat) : List Char → Nat
  | [] => acc
  | c :: t =>
    if pat.isPrefixOf (c :: t) then countOccurGo pat (acc + 1) t
    else countOccurGo pat acc t

/-- Number of (possibly overlapping) occurrences of a nonempty pat in s:
the number of positions of s at which pat begins. -/
def countOccur (pat : List Char) (s : List Char) : Nat := countOccurGo pat 0 s

/-- Boundary check for counting occurrences across a concatenation: no
occurrence of pat may begin inside the last pat.length - 1 characters of a
and continue into b.  The check inspects only those tail windows of a,
extended by the first pat.length characters of b. -/
def straddleFree (pat a b : List Char) : Bool :=
  (List.range pat.length).all (fun k =>
    k == 0 || !(pat.isPrefixOf (((a.reverse.take k).reverse) ++ b.take pat.length)))

/-- Every character of the string is ASCII. -/
def allAscii (s : List Char) : Prop := ∀ c ∈ s, c.toNat < 128


/-!
Line classification shared by the two renderers (C4, C10).

`LessonPDF.add_lesson_content` (src/bot.py lines 744-822) and
`create_lesson_html` (src/bot.py lines 926-1188) each strip every line of the
raw lesson text and classify it by an if/elif chain.  `BlockType` names the
branches; `colonLabel` is the branch the PDF renderer alone has (a short line
ending in a colon, rendered as a bold slate section label, bot.py line 799).
-/

inductive BlockType where
  | blank
  | heading
  | boldLine
  | colonLabel
  | bullet
  | numbered
  | para
deriving DecidableEq, Repr

/-- Second character of a list, blank-padded; mirrors line[1] under a length guard. -/
def secondCh (l : List Char) : Char := (l.drop 1).headD ' '

/-- Numbered-item test shared verbatim by both renderers:
the line is longer than two characters, starts with a digit, and has a
period, closing parenthesis or colon as its second character. -/
def isNumberedLine (line : List Char) : Bool :=
  decide (2 < line.length) && pyIsDigit (line.headD ' ') &&
    (secondCh line = '.' || secondCh line = ')' || secondCh line = ':')

/-- Bullet test shared verbatim by both renderers:
the line starts with a dash, asterisk or bullet character followed by a
space. -/
def isBulletLine (line : List Char) : Bool :=
  (chs "- ").isPrefixOf line || (chs "* ").isPrefixOf line || (chs "• ").isPrefixOf line

/-- Bold-line test shared verbatim: line.startswith(chr(42)*2) and
line.endswith(chr(42)*2). -/
def isBoldLine (line : List Char) : Bool :=
  (chs "**").isPrefixOf line && (chs "**").isSuffixOf line

/-- Block type assigned to one raw line by LessonPDF.add_lesson_content
(src/bot.py 763-818): strip, then the if/elif chain in source order. -/
def pdfClassifyLine (raw : List Char) : BlockType :=
  let line := pyStrip raw
  if line = [] then .blank
  else if (chs "## ").isPrefixOf line || (chs "# ").isPrefixOf line then .heading
  else if isBoldLine line then .boldLine
  else if (chs ":").isSuffixOf line && decide (line.length < 60) &&
            !((chs "-").isPrefixOf line) then .colonLabel
  else if isBulletLine line then .bullet
  else if isNumberedLine line then .numbered
  else .para

/-- Block type assigned to one raw line by the conversion loop of
create_lesson_html (src/bot.py 957-1003): strip, then the if/elif chain in
source order; the `## ` and `# ` branches both produce headings. -/
def htmlClassifyLine (raw : List Char) : BlockType :=
  let line := pyStrip raw
  if line = [] then .blank
  else if (chs "## ").isPrefixOf line then .heading
  else if (chs "# ").isPrefixOf line then .heading
  else if isBoldLine line then .boldLine
  else if isBulletLine line then .bullet
  else if isNumberedLine line then .numbered
  else .para

/-!
ASCII sanitizers (C6).

`ascii_only` (src/api.py 229-241) and `LessonPDF._safe_text`
(src/bot.py 824-853) each run a fixed replacement table and then force the
result into ASCII.  The tables are transcribed entry for entry, in dict
insertion order, as Python parses them.  Two quirks of the source are
preserved: the entry written with smart quotes in the source actually parses
as mapping the ASCII double-quote character to itself, and the four
smart-quote entries collapse into one entry whose key is the triple-quoted
ASCII string between them.
-/

/-- Replacement table of api.py ascii_only, as parsed (dict insertion order,
the duplicate double-quote key collapsed). -/
def apiReplacements : List (List Char × List Char) :=
  [ (chs "á", chs "a"), (chs "é", chs "e"), (chs "í", chs "i"),
    (chs "ó", chs "o"), (chs "ú", chs "u"),
    (chs "Á", chs "A"), (chs "É", chs "E"), (chs "Í", chs "I"),
    (chs "Ó", chs "O"), (chs "Ú", chs "U"),
    (chs "ñ", chs "n"), (chs "Ñ", chs "N"), (chs "ü", chs "u"), (chs "Ü", chs "U"),
    (chs "¿", chs "?"), (chs "¡", chs "!"), (chs "–", chs "-"), (chs "—", chs "-"),
    (chs "\"", chs "\""),
    (chs ": \"\x27\", ", chs "\x27") ]

namespace Api

/-- Model of api.py ascii_only: run the table, then keep ASCII characters and
turn every remaining non-ASCII character into a space
(the join over `c if ord(c) < 128 else chr(32)`). -/
def ascii_only (s : List Char) : List Char :=
  (applyTable apiReplacements s).map (fun c => if c.toNat < 128 then c else ' ')

end Api

/-- Replacement table of LessonPDF._safe_text, as parsed (dict insertion
order, the duplicate double-quote key collapsed; the key between the
smart-quote lines is the 19-character triple-quoted ASCII string with a
newline and 12 spaces). -/
def botReplacements : List (List Char × List Char) :=
  [ (chs "→", chs "->"), (chs "←", chs "<-"), (chs "•", chs "-"),
    (chs "–", chs "-"), (chs "—", chs "-"),
    (chs "\"", chs "\""),
    (chs ": \"\x27\",\n            ", chs "\x27"),
    (chs "…", chs "..."), (chs "✓", chs "[x]"), (chs "✗", chs "[ ]"),
    (chs "★", chs "*"),
    (chs "📚", chs ""), (chs "📝", chs ""), (chs "🎯", chs ""),
    (chs "💡", chs "[Tip]"), (chs "⏱", chs ""), (chs "👥", chs ""),
    (chs "₱", chs "PHP "), (chs "₹", chs "Rs "), (chs "₦", chs "NGN ") ]

namespace Bot

/-- Model of LessonPDF._safe_text: run the table, then
text.encode(ascii, replace).decode(ascii), which keeps ASCII characters and
turns every remaining non-ASCII character into a question mark. -/
def safe_text (s : List Char) : List Char :=
  (applyTable botReplacements s).map (fun c => if c.toNat < 128 then c else '?')

end Bot

/-!
Prompt builders (C1, C5).

src/api.py 104-207 builds a single f-string prompt from a LessonRequest and
converts the duration with int() three times inside it; src/bot.py 452-594
joins a list of parts and never converts the duration.  The three sub-timing
values in api.py are computed as int(int(duration) * 0.15), int(int(duration)
* 0.6) and int(int(duration) * 0.25) in IEEE double arithmetic; double
arithmetic has no shallow embedding here, so the builder takes the timing
computation as an explicit parameter.  No theorem below depends on the timing
values except through a documented concrete instance.
-/

namespace Api

/-- Request model of api.py (class LessonRequest, lines 67-75). -/
structure LessonRequest where
  subject : List Char
  topic : List Char
  ages : List Char
  duration : List Char
  country : List Char
  materials : List Char
  style : List Char
  language : List Char

/-- materials_desc lookup with its dict default, Spanish branch (api.py 109-113). -/
def materialsDescEs (m : List Char) : List Char :=
  if m = chs "none" then chs "SIN MATERIALES - usar solo actividades verbales, movimiento, imaginación"
  else if m = chs "basic" then chs "Materiales básicos - papel, lápices, pizarra"
  else if m = chs "standard" then chs "Útiles completos de aula disponibles"
  else chs "Materiales básicos - papel, lápices, pizarra"

/-- style_desc lookup with its dict default, Spanish branch (api.py 114-119). -/
def styleDescEs (st : List Char) : List Char :=
  if st = chs "interactive" then chs "Usa métodos altamente interactivos con juegos, trabajo en grupo, movimiento y actividades prácticas."
  else if st = chs "structured" then chs "Usa un enfoque estructurado dirigido por el docente con instrucciones claras paso a paso."
  else if st = chs "storytelling" then chs "Usa narrativa y cuentos para enseñar conceptos, creando personajes y escenarios."
  else if st = chs "mixed" then chs "Equilibra diferentes estilos de enseñanza según la actividad."
  else chs "Equilibra diferentes estilos de enseñanza según la actividad."

/-- materials_desc lookup with its dict default, English branch (api.py 121-125). -/
def materialsDescEn (m : List Char) : List Char :=
  if m = chs "none" then chs "NO MATERIALS - use only verbal activities, movement, imagination"
  else if m = chs "basic" then chs "Basic materials - paper, pencils, blackboard"
  else if m = chs "standard" then chs "Full classroom supplies available"
  else chs "Basic materials - paper, pencils, blackboard"

/-- style_desc lookup with its dict default, English branch (api.py 126-131). -/
def styleDescEn (st : List Char) : List Char :=
  if st = chs "interactive" then chs "Use highly interactive methods with games, group work, movement, and hands-on activities."
  else if st = chs "structured" then chs "Use a structured teacher-led approach with clear step-by-step instructions."
  else if st = chs "storytelling" then chs "Use narrative and storytelling to teach concepts, creating characters and scenarios."
  else if st = chs "mixed" then chs "Balance different teaching styles as appropriate for each activity."
  else chs "Balance different teaching styles as appropriate for each activity."

/-- Spanish return f-string of build_lesson_prompt (api.py 137-171), with the
three interpolated sub-timing integers passed in. -/
def promptEs (p : LessonRequest) (t1 t2 t3 : Int) : List Char :=
  chs "Crea un plan de lección detallado con estas especificaciones:\n\n**Materia:** " ++ p.subject ++
  chs "\n**Tema:** " ++ p.topic ++
  chs "\n**Edades de los estudiantes:** " ++ p.ages ++
  chs " años\n**Duración:** " ++ p.duration ++
  chs " minutos\n**Ubicación/Contexto:** " ++ p.country ++
  chs "\n**Materiales disponibles:** " ++ materialsDescEs p.materials ++
  chs "\n**Estilo de enseñanza:** " ++ styleDescEs p.style ++
  chs "\n\nFormatea tu respuesta como un plan de lección completo con estas secciones:\n## Objetivos de Aprendizaje\n## Materiales Necesarios\n## Introducción de la Lección (" ++ intChs t1 ++
  chs " min)\n## Actividad Principal (" ++ intChs t2 ++
  chs " min)\n## Cierre y Evaluación (" ++ intChs t3 ++
  chs " min)\n## Consejos de Diferenciación\n\nPautas:\n- Usa ejemplos culturalmente relevantes para " ++ p.country ++
  chs "\n- Mantén el lenguaje claro y accesible\n- Incluye actividades específicas, no solo descripciones\n- Agrega tiempo para cada sección\n- Sugiere adaptaciones para diferentes niveles de habilidad\n\n## Preguntas de Comprensión\n1. [Pregunta con respuesta]\n2. [Pregunta con respuesta]\n3. [Pregunta con respuesta]\n\n## Consejos para el Docente\n- [Consejo 1]\n- [Consejo 2]\n\nCRÍTICO: Cada sección debe tener contenido real."

/-- English return f-string of build_lesson_prompt (api.py 173-207), with the
three interpolated sub-timing integers passed in. -/
def promptEn (p : LessonRequest) (t1 t2 t3 : Int) : List Char :=
  chs "Create a detailed lesson plan with these specifications:\n\n**Subject:** " ++ p.subject ++
  chs "\n**Topic:** " ++ p.topic ++
  chs "\n**Student Ages:** " ++ p.ages ++
  chs " years old\n**Duration:** " ++ p.duration ++
  chs " minutes\n**Location/Context:** " ++ p.country ++
  chs "\n**Available Materials:** " ++ materialsDescEn p.materials ++
  chs "\n**Teaching Style:** " ++ styleDescEn p.style ++
  chs "\n\nFormat your response as a complete lesson plan with these sections:\n## Learning Objectives\n## Materials Needed\n## Lesson Introduction (" ++ intChs t1 ++
  chs " min)\n## Main Activity (" ++ intChs t2 ++
  chs " min)\n## Wrap-Up & Assessment (" ++ intChs t3 ++
  chs " min)\n## Differentiation Tips\n\nGuidelines:\n- Use culturally relevant examples for " ++ p.country ++
  chs "\n- Keep language clear and accessible\n- Include specific activities, not just descriptions\n- Add timing for each section\n- Suggest adaptations for different skill levels\n\n## Comprehension Questions\n1. [Question with answer]\n2. [Question with answer]\n3. [Question with answer]\n\n## Teacher Tips\n- [Tip 1]\n- [Tip 2]\n\nCRITICAL: Every section must have real content."

/-- Model of api.py build_lesson_prompt (lines 104-207).  `timings n` stands
for the tuple (int(n * 0.15), int(n * 0.6), int(n * 0.25)) computed by the
source in IEEE double arithmetic; `Except.error ()` models the ValueError
that int(params.duration) raises on a non-parseable duration, which the
function does not catch. -/
def build_lesson_prompt (timings : Int → Int × Int × Int)
    (p : LessonRequest) : Except Unit (List Char) :=
  match pyInt? p.duration with
  | none => Except.error ()
  | some n =>
    let (t1, t2, t3) := timings n
    if p.language = chs "es" then Except.ok (promptEs p t1 t2 t3)
    else Except.ok (promptEn p t1 t2 t3)

end Api

/-- Timing oracle recording the actual IEEE double results at duration 30:
int(30 * 0.15) = 4, int(30 * 0.6) = 18, int(30 * 0.25) = 7 in Python floats
(0.15 and 0.6 are slightly below their decimal values as doubles, and the
products round to 4.5, 18.0 and 7.5, truncating to 4, 18 and 7).  Used only
at duration 30 and on error paths that never consult it. -/
def pyTimings30 : Int → Int × Int × Int := fun _ => (4, 18, 7)

namespace Bot

/-- Wizard parameter dictionary of bot.py: the session params keys that
build_lesson_prompt, the renderers and create_lesson_record read.  A `none`
models an absent key. -/
structure BotParams where
  subject : Option (List Char) := none
  topic : Option (List Char) := none
  ages : Option (List Char) := none
  duration : Option (List Char) := none
  class_size : Option (List Char) := none
  country : Option (List Char) := none
  materials : Option (List Char) := none
  style : Option (List Char) := none
  depth : Option (List Char) := none
  special_requests : Option (List Char) := none
  output_format : Option (List Char) := none

/-- Python truthiness of params.get(key): present and non-empty. -/
def truthy (o : Option (List Char)) : Bool :=
  match o with
  | some (_ :: _) => true
  | _ => false

/-- Dict part contributed when the key is truthy (the `if params.get(k):`
guards of bot.py build_lesson_prompt). -/
def optPart (o : Option (List Char)) (f : List Char → List Char) : List (List Char) :=
  match o with
  | some (c :: t) => [f (c :: t)]
  | _ => []

/-- Quick-depth output template (bot.py 501-521). -/
def depthQuick : List Char :=
  chs "\nOUTPUT FORMAT - QUICK PLAN (~200 words):\n\n## Learning Objective\n[1 clear sentence: \"Students will be able to...\"]\n\n## Key Points\n- [Point 1 - complete sentence]\n- [Point 2 - complete sentence]\n- [Point 3 - complete sentence]\n\n## Main Activity (X minutes)\n[Describe the activity. Include what to say: \"Ask students...\"]\n\n## Quick Check\n[Write 1 specific question to ask at the end]\n\n## Teacher Tip\n[1 practical tip]\n\nREMEMBER: Every bullet point must be complete. No empty sections."

/-- Standard-depth output template (bot.py 522-548). -/
def depthStandard : List Char :=
  chs "\nOUTPUT FORMAT - STANDARD LESSON PLAN:\nComplete and concise (~500 words). Structure EXACTLY like this:\n\n## Learning Objective\n[Write 1-2 specific, measurable objectives - what students will be able to DO]\n\n## Materials Needed\n[List specific items, or write \"None required\" if no materials]\n\n## Opening Hook (3 minutes)\n[Write the specific question or activity to grab attention. Include exact words to say.]\n\n## Main Lesson (X minutes)\n[Step-by-step instructions with timing. Include what to SAY and what to DO.]\n\n## Practice Activity (X minutes)\n[Detailed hands-on activity. Explain exactly how it works.]\n\n## Closing (3 minutes)\n[2-3 specific questions to check understanding. Write the actual questions.]\n\n## Teacher Tips\n[2 practical tips for common challenges]\n\nREMEMBER: Every section MUST have real content. No empty sections. No placeholders."

/-- Full-depth output template (bot.py 549-588). -/
def depthFull : List Char :=
  chs "\nOUTPUT FORMAT - FULL LESSON KIT (~800 words):\n\n## Learning Objectives\n- [Objective 1 - specific and measurable]\n- [Objective 2 - specific and measurable]\n\n## Materials Needed\n[List all materials, or \"None required\"]\n\n## Opening Hook (3 minutes)\n[Specific engaging question or activity with exact words to say]\n\n## Main Lesson (X minutes)\n[Detailed step-by-step with timing for each step. Include dialogue.]\n\n## Practice Activity (X minutes)\n[Complete activity description with clear instructions]\n\n## Closing (3 minutes)\n[Specific wrap-up questions - write the actual questions]\n\n## Differentiation\n**For students who need support:** [Specific strategies - at least 2 sentences]\n**For advanced students:** [Specific extension - at least 2 sentences]\n\n## Assessment Questions\n1. [Question with answer in parentheses]\n2. [Question with answer in parentheses]\n3. [Question with answer in parentheses]\n\n## Extension Activity\n[Optional homework or follow-up - complete description]\n\n## Teacher Tips\n- [Tip 1 - complete thought]\n- [Tip 2 - complete thought]\n\nCRITICAL: Every single section must have substantive content. If you write a header, you MUST fill it in completely. No empty sections allowed."

/-- Model of bot.py build_lesson_prompt (lines 452-594): prompt_parts built in
source order and joined with a newline.  The duration is interpolated
verbatim and never parsed; the function is total. -/
def build_lesson_prompt (params : BotParams) : List Char :=
  let parts : List (List Char) :=
    [chs "Create a lesson plan for: " ++ (params.topic.getD (chs "general topic"))]
    ++ optPart params.subject (fun v => chs "Subject: " ++ v)
    ++ optPart params.ages (fun v => chs "Student ages: " ++ v)
    ++ optPart params.duration (fun v => chs "Class duration: " ++ v ++ chs " minutes")
    ++ optPart params.class_size (fun v => chs "Class size: approximately " ++ v ++ chs " students")
    ++ optPart params.country (fun v => chs "Location context: " ++ v ++ chs " (use locally relevant examples)")
    ++ (let m := params.materials.getD (chs "minimal")
        if m = chs "none" then [chs "Available materials: No physical materials - design activities using voice, movement, games, and imagination only"]
        else if m = chs "basic" then [chs "Available materials: Basic supplies - chalkboard or whiteboard, paper, pencils"]
        else if m = chs "standard" then [chs "Available materials: Full classroom - worksheets, art supplies, manipulatives, varied resources"]
        else [])
    ++ (match params.style with
        | some st =>
          if st = chs "interactive" then [chs "Teaching style: Highly interactive - lots of student participation, movement, games"]
          else if st = chs "structured" then [chs "Teaching style: Structured - clear steps, organized progression, some interaction"]
          else if st = chs "storytelling" then [chs "Teaching style: Story-based - use narratives, characters, scenarios to teach concepts"]
          else []
        | none => [])
    ++ (let d := params.depth.getD (chs "standard")
        if d = chs "quick" then [depthQuick]
        else if d = chs "standard" then [depthStandard]
        else if d = chs "full" then [depthFull]
        else [])
    ++ optPart params.special_requests (fun v => chs "Special requests: " ++ v)
  joinSep (chs "\n") parts

end Bot

/-!
HTML renderer (C10, C4): create_lesson_html, src/bot.py 926-1188.

The conversion loop appends one of nine string pieces per classified line;
`HFrag` names each piece, `fragText` is its exact text, and `contentFrags`
is the sequence the loop emits, including the final close of a dangling
list.  The inline-bold regex substitution of the paragraph branch
(re.sub over a non-greedy bold pattern) is `inlineBold`.
-/

/-- Closing-and-rest search of the inline bold regex: after an opening
double-star, the shortest non-empty content followed by a closing
double-star, returning the content and the text after the match. -/
def fcClose : List Char → Option (List Char × List Char)
  | [] => none
  | c :: t =>
    if (chs "**").isPrefixOf t then some ([c], t.drop 2)
    else
      match fcClose t with
      | some (cont, rest) => some (c :: cont, rest)
      | none => none

/-- Fuel-indexed scan of the substitution; with fuel at least the length of
the line this is exactly re.sub: at each position, if a bold match starts
there, replace it and resume after it, otherwise move one character right.
Structural recursion on the fuel keeps the function reducible by the kernel
(the rest after a match is strictly shorter than the scanned text, so the
fuel bound is preserved). -/
def inlineBoldGo : Nat → List Char → List Char
  | _, [] => []
  | 0, s => s
  | Nat.succ f, c :: t =>
    if (chs "**").isPrefixOf (c :: t) then
      match fcClose ((c :: t).drop 2) with
      | some (cont, rest) =>
        chs "<strong>" ++ cont ++ chs "</strong>" ++ inlineBoldGo f rest
      | none => c :: inlineBoldGo f t
    else c :: inlineBoldGo f t

/-- Model of the paragraph-branch substitution
re.sub over the non-greedy bold pattern replacing with strong tags
(src/bot.py 1001-1002): leftmost-shortest matches, scanning resumes after
each replacement. -/
def inlineBold (s : List Char) : List Char := inlineBoldGo s.length s

/-- One emitted piece of content_html. -/
inductive HFrag where
  | ulOpen
  | ulClose
  | br
  | h2 (c : List Char)
  | h1 (c : List Char)
  | pbold (c : List Char)
  | li (c : List Char)
  | pnum (c : List Char)
  | para (c : List Char)
deriving DecidableEq, Repr

/-- Exact text of each emitted piece, as in the source f-strings. -/
def fragText : HFrag → List Char
  | .ulOpen => chs "<ul>"
  | .ulClose => chs "</ul>"
  | .br => chs "<br>"
  | .h2 c => chs "<h2>" ++ c ++ chs "</h2>"
  | .h1 c => chs "<h1>" ++ c ++ chs "</h1>"
  | .pbold c => chs "<p class=\x27bold\x27>" ++ c ++ chs "</p>"
  | .li c => chs "<li>" ++ c ++ chs "</li>"
  | .pnum c => chs "<p class=\x27numbered\x27>" ++ c ++ chs "</p>"
  | .para c => chs "<p>" ++ c ++ chs "</p>"

/-- The close emitted when a list is open. -/
def closeIf (inList : Bool) : List HFrag := if inList then [HFrag.ulClose] else []

/-- Pieces emitted for one raw line together with the new in_list flag,
mirroring the loop body of create_lesson_html (src/bot.py 957-1003). -/
def lineFrags (raw : List Char) (inList : Bool) : List HFrag × Bool :=
  let line := pyStrip raw
  if line = [] then (closeIf inList ++ [.br], false)
  else if (chs "## ").isPrefixOf line then (closeIf inList ++ [.h2 (line.drop 3)], false)
  else if (chs "# ").isPrefixOf line then (closeIf inList ++ [.h1 (line.drop 2)], false)
  else if isBoldLine line then (closeIf inList ++ [.pbold (pyStripStar line)], false)
  else if isBulletLine line then
    ((if inList then [] else [HFrag.ulOpen]) ++ [HFrag.li (line.drop 2)], true)
  else if isNumberedLine line then (closeIf inList ++ [.pnum line], false)
  else (closeIf inList ++ [.para (inlineBold line)], false)

/-- Loop over all lines, threading in_list, plus the final close
(src/bot.py 1005-1006). -/
def goFrags : List (List Char) → Bool → List HFrag
  | [], inList => closeIf inList
  | l :: ls, inList =>
    let p := lineFrags l inList
    p.1 ++ goFrags ls p.2

/-- The piece sequence content_html is assembled from. -/
def contentFrags (content : List Char) : List HFrag :=
  goFrags (pySplitCh '\n' content) false

/-- content_html of create_lesson_html: concatenation of the emitted pieces. -/
def contentHtml (content : List Char) : List Char :=
  (contentFrags content).foldl (fun acc f => acc ++ fragText f) []

namespace Bot

/-- materials_map.get with passthrough default (src/bot.py 946). -/
def materialsMapHtml (m : List Char) : List Char :=
  if m = chs "none" then chs "No materials"
  else if m = chs "basic" then chs "Basic supplies"
  else if m = chs "standard" then chs "Full classroom"
  else m

/-- style_map.get with passthrough default (src/bot.py 949). -/
def styleMapHtml (st : List Char) : List Char :=
  if st = chs "interactive" then chs "Interactive"
  else if st = chs "structured" then chs "Structured"
  else if st = chs "storytelling" then chs "Story-based"
  else st

/-- specs_html of create_lesson_html (src/bot.py 934-950): one div per
truthy parameter, in source order. -/
def specsHtml (params : BotParams) : List Char :=
  (match params.subject with
   | some (c :: t) => chs "<div class=\x27spec\x27><span class=\x27label\x27>Subject:</span> " ++ (c :: t) ++ chs "</div>"
   | _ => [])
  ++ (match params.topic with
   | some (c :: t) => chs "<div class=\x27spec\x27><span class=\x27label\x27>Topic:</span> " ++ (c :: t) ++ chs "</div>"
   | _ => [])
  ++ (match params.ages with
   | some (c :: t) => chs "<div class=\x27spec\x27><span class=\x27label\x27>Ages:</span> " ++ (c :: t) ++ chs "</div>"
   | _ => [])
  ++ (match params.duration with
   | some (c :: t) => chs "<div class=\x27spec\x27><span class=\x27label\x27>Duration:</span> " ++ (c :: t) ++ chs " minutes</div>"
   | _ => [])
  ++ (match params.country with
   | some (c :: t) => chs "<div class=\x27spec\x27><span class=\x27label\x27>Location:</span> " ++ (c :: t) ++ chs "</div>"
   | _ => [])
  ++ (match params.materials with
   | some (c :: t) => chs "<div class=\x27spec\x27><span class=\x27label\x27>Materials:</span> " ++ materialsMapHtml (c :: t) ++ chs "</div>"
   | _ => [])
  ++ (match params.style with
   | some (c :: t) => chs "<div class=\x27spec\x27><span class=\x27label\x27>Style:</span> " ++ styleMapHtml (c :: t) ++ chs "</div>"
   | _ => [])

end Bot

/-- Literal shell of the create_lesson_html f-string before the topic
interpolation (src/bot.py 1010-1015). -/
def shellA : List Char :=
  chs "<!DOCTYPE html>\n<html lang=\"en\">\n<head>\n    <meta charset=\"UTF-8\">\n    <meta name=\"viewport\" content=\"width=device-width, initial-scale=1.0\">\n    <title>"

/-- Literal shell between the topic and specs_html interpolations: the
title tail, the full inline stylesheet and the header markup
(src/bot.py 1015-1175). -/
def shellB : List Char :=
  chs " - Tooley Lesson Plan</title>\n    <style>\n        * \x7b margin: 0; padding: 0; box-sizing: border-box; \x7d\n        \n        body \x7b\n            font-family: -apple-system, BlinkMacSystemFont, \x27Segoe UI\x27, Roboto, sans-serif;\n            font-size: 14px;\n            line-height: 1.6;\n            color: #0f172a;\n            background: #ffffff;\n            max-width: 800px;\n            margin: 0 auto;\n            padding: 40px 30px;\n        \x7d\n        \n        /* Header */\n        .header \x7b\n            display: flex;\n            align-items: center;\n            gap: 12px;\n            margin-bottom: 8px;\n            padding-bottom: 16px;\n            border-bottom: 2px solid #0f172a;\n        \x7d\n        \n        .logo \x7b\n            display: flex;\n            align-items: center;\n            gap: 8px;\n        \x7d\n        \n        .logo-bar \x7b\n            width: 4px;\n            height: 28px;\n            background: #d97706;\n            border-radius: 2px;\n        \x7d\n        \n        .logo-text \x7b\n            font-size: 24px;\n            font-weight: 700;\n            color: #0f172a;\n            letter-spacing: -0.5px;\n        \x7d\n        \n        .tagline \x7b\n            font-size: 11px;\n            color: #64748b;\n            margin-left: auto;\n        \x7d\n        \n        /* Specs Box */\n        .specs-box \x7b\n            background: #fffbeb;\n            border: 1px solid #0f172a;\n            padding: 16px 20px;\n            margin: 20px 0 30px 0;\n        \x7d\n        \n        .specs-title \x7b\n            font-size: 11px;\n            font-weight: 700;\n            color: #d97706;\n            letter-spacing: 0.5px;\n            text-transform: uppercase;\n            margin-bottom: 12px;\n        \x7d\n        \n        .spec \x7b\n            font-size: 13px;\n            margin-bottom: 4px;\n        \x7d\n        \n        .spec .label \x7b\n            font-weight: 600;\n        \x7d\n        \n        /* Content */\n        h1 \x7b\n            font-size: 22px;\n            font-weight: 700;\n            color: #0f172a;\n            margin: 28px 0 12px 0;\n            padding-bottom: 6px;\n            border-bottom: 2px solid #d97706;\n            display: inline-block;\n        \x7d\n        \n        h2 \x7b\n            font-size: 18px;\n            font-weight: 600;\n            color: #0f172a;\n            margin: 24px 0 10px 0;\n            padding-bottom: 4px;\n            border-bottom: 2px solid #d97706;\n            display: inline-block;\n        \x7d\n        \n        p \x7b\n            margin-bottom: 10px;\n        \x7d\n        \n        p.bold \x7b\n            font-weight: 600;\n            color: #334155;\n            margin-top: 16px;\n        \x7d\n        \n        p.numbered \x7b\n            margin-left: 16px;\n        \x7d\n        \n        ul \x7b\n            margin: 10px 0 10px 24px;\n        \x7d\n        \n        li \x7b\n            margin-bottom: 6px;\n        \x7d\n        \n        strong \x7b\n            font-weight: 600;\n        \x7d\n        \n        /* Footer */\n        .footer \x7b\n            margin-top: 40px;\n            padding-top: 16px;\n            border-top: 1px solid #e2e8f0;\n            text-align: center;\n            font-size: 12px;\n            color: #64748b;\n        \x7d\n        \n        /* Print styles */\n        @media print \x7b\n            body \x7b\n                padding: 20px;\n                max-width: 100%;\n            \x7d\n            .specs-box \x7b\n                break-inside: avoid;\n            \x7d\n            h2 \x7b\n                break-after: avoid;\n            \x7d\n        \x7d\n    </style>\n</head>\n<body>\n    <div class=\"header\">\n        <div class=\"logo\">\n            <div class=\"logo-bar\"></div>\n            <span class=\"logo-text\">tooley</span>\n        </div>\n        <span class=\"tagline\">AI Lesson Plans for Teachers | tooley.app</span>\n    </div>\n    \n    <div class=\"specs-box\">\n        <div class=\"specs-title\">Lesson Specifications</div>\n        "

/-- Literal shell between specs_html and content_html (src/bot.py 1175-1179). -/
def shellC : List Char :=
  chs "\n    </div>\n    \n    <div class=\"content\">\n        "

/-- Literal shell after content_html: the footer and closing tags
(src/bot.py 1179-1186). -/
def shellD : List Char :=
  chs "\n    </div>\n    \n    <div class=\"footer\">\n        Generated by Tooley | tooley.app | Free for all teachers\n    </div>\n</body>\n</html>"

namespace Bot

/-- Model of create_lesson_html (src/bot.py 926-1188): the document is the
shell with the topic (params.get with default), specs_html and content_html
interpolated. -/
def create_lesson_html (content : List Char) (params : BotParams) : List Char :=
  shellA ++ params.topic.getD (chs "Lesson Plan") ++ shellB ++ specsHtml params
    ++ shellC ++ contentHtml content ++ shellD

end Bot

/-!
PDF creation (C2): create_lesson_pdf, src/bot.py 856-886.

The function tries the full branded layout (LessonPDF plus
add_lesson_content plus output), and on any exception builds one fresh
fallback document: a plain FPDF page with the literal header line
"Tooley - Lesson Plan" followed by the first 50 lines of the content,
each ASCII-forced with the replace error handler and truncated to 90
characters.  The fallback is not guarded by a second try/except.  The two
fpdf rendering passes are external side effects and enter the model as the
oracles render1 and render2; `Except.error` models an uncaught exception.
-/

/-- Lines fed to the fallback document: content.split(newline)[:50], each
line.encode(ascii, replace).decode(ascii)[:90]  (src/bot.py 880-882). -/
def fallbackLines (content : List Char) : List (List Char) :=
  ((pySplitCh '\n' content).take 50).map
    (fun l => (l.map (fun c => if c.toNat < 128 then c else '?')).take 90)

namespace Bot

/-- Model of create_lesson_pdf: first rendering attempt, and on exception the
single fallback attempt over the processed lines; a fallback exception
propagates (there is no third tier and no catch around the fallback). -/
def create_lesson_pdf {δ : Type} (render1 : Except Unit δ)
    (render2 : List (List Char) → Except Unit δ) (content : List Char) :
    Except Unit δ :=
  match render1 with
  | Except.ok d => Except.ok d
  | Except.error _ => render2 (fallbackLines content)

end Bot

/-!
Persistence (C7, C8): save_lesson_to_github (src/bot.py 1269-1330) and
push_lesson_to_website (src/bot.py 1333-1418).

Both read the current JSON list, insert the new record at index 0, truncate
(1000 records for the lesson repository, 50 for the website carousel) and
write back; any exception is caught and turned into False.  The HTTP calls
enter the model as oracles: `GetResult` is the outcome of the GET
(a 200 with the parsed list and sha, any other status, or a raised
exception), and putRes is the outcome of the PUT on the written list.
-/

/-- The list written back by save_lesson_to_github:
lessons.insert(0, lesson); lessons = lessons[:1000]  (src/bot.py 1296-1300). -/
def savedLessonsWritten {α : Type} (lesson : α) (prev : List α) : List α :=
  (lesson :: prev).take 1000

/-- The list written back by push_lesson_to_website:
lessons.insert(0, carousel_lesson); lessons = lessons[:50]
(src/bot.py 1378-1382). -/
def websiteLessonsWritten {α : Type} (lesson : α) (prev : List α) : List α :=
  (lesson :: prev).take 50

/-- Outcome of the GET on the stored JSON file. -/
inductive GetResult (α : Type) where
  | ok200 (lessons : List α) (sha : List Char)
  | otherStatus
  | exn

namespace Bot

/-- Model of save_lesson_to_github: False without a token; on a 200 read the
previous list, else start fresh; insert-at-front, truncate to 1000, PUT; any
exception (read or write) is caught by the surrounding try and yields False;
a successful PUT yields True. -/
def save_lesson_to_github {α : Type} (tokenSet : Bool) (getRes : GetResult α)
    (putRes : List α → Except Unit Unit) (lesson : α) : Bool :=
  if !tokenSet then false
  else
    match getRes with
    | GetResult.exn => false
    | GetResult.ok200 prev _ =>
      match putRes (savedLessonsWritten lesson prev) with
      | Except.ok _ => true
      | Except.error _ => false
    | GetResult.otherStatus =>
      match putRes (savedLessonsWritten lesson []) with
      | Except.ok _ => true
      | Except.error _ => false

/-- Model of push_lesson_to_website: same shape with the 50-record carousel
cap and the additional configuration guard. -/
def push_lesson_to_website {α : Type} (configSet : Bool) (getRes : GetResult α)
    (putRes : List α → Except Unit Unit) (carousel : α) : Bool :=
  if !configSet then false
  else
    match getRes with
    | GetResult.exn => false
    | GetResult.ok200 prev _ =>
      match putRes (websiteLessonsWritten carousel prev) with
      | Except.ok _ => true
      | Except.error _ => false
    | GetResult.otherStatus =>
      match putRes (websiteLessonsWritten carousel []) with
      | Except.ok _ => true
      | Except.error _ => false

end Bot

/-!
Lesson records and the share flow (C9, C7, C3): create_lesson_record
(src/bot.py 1421-1439) and the awaiting_teacher_name and format_ branches of
handle_message / handle_callback (src/bot.py 2408-2464 and 2072-2162).
-/

/-- A Python value that is either a string or an int, for the duration field
of a record (the duration defaults to the int 45 but keeps the string from
the wizard when present). -/
inductive StrOrInt where
  | s (v : List Char)
  | i (v : Int)
deriving DecidableEq, Repr

/-- Persisted lesson record (the dict literal of create_lesson_record). -/
structure LessonRecord where
  id : List Char
  created : List Char
  teacher_name : List Char
  country : List Char
  subject : List Char
  topic : List Char
  ages : List Char
  duration : StrOrInt
  materials : List Char
  style : List Char
  depth : List Char
  content : List Char
  isPublic : Bool
  views : Nat
  downloads : Nat
deriving DecidableEq, Repr

namespace Bot

/-- Model of create_lesson_record (src/bot.py 1421-1439).  idGen and
createdAt stand for generate_lesson_id() and the utcnow timestamp; the
teacher_name field is teacher_name or "Anonymous" (None and the empty string
are falsy). -/
def create_lesson_record (params : BotParams) (content : List Char)
    (teacher_name : Option (List Char)) (isPublic : Bool)
    (idGen createdAt : List Char) : LessonRecord :=
  { id := idGen
    created := createdAt
    teacher_name :=
      match teacher_name with
      | none => chs "Anonymous"
      | some t => if t = [] then chs "Anonymous" else t
    country := params.country.getD (chs "Global")
    subject := params.subject.getD (chs "General")
    topic := params.topic.getD (chs "Untitled")
    ages := params.ages.getD (chs "All ages")
    duration :=
      match params.duration with
      | some d => StrOrInt.s d
      | none => StrOrInt.i 45
    materials := params.materials.getD (chs "basic")
    style := params.style.getD (chs "mixed")
    depth := params.depth.getD (chs "standard")
    content := content
    isPublic := isPublic
    views := 0
    downloads := 0 }

/-- Per-user session record of bot.py (get_session, src/bot.py 1525-1534). -/
structure Session where
  state : List Char
  params : BotParams
  last_lesson : Option (List Char)
  pending_share : Bool

/-- Observable side effects of the format_ branch of handle_callback, in
emission order. -/
inductive OutEvent where
  | progress
  | textChunks
  | docPdf
  | docHtml
  | shareAsk
  | errorGeneric
deriving DecidableEq, Repr

/-- Model of the format_ branch of handle_callback (src/bot.py 2072-2162):
record the chosen output_format, edit in the progress message, then run the
generation call once; on success deliver the chosen formats, ask the share
question and set the state to lesson_generated; on an exception
(genResult = error) send the generic failure message and leave the session
state untouched. -/
def handleFormatSelection (genResult : Except Unit (List Char))
    (fmt : List Char) (s : Session) : Session × List OutEvent :=
  let s1 := { s with params := { s.params with output_format := some fmt } }
  match genResult with
  | Except.error _ => (s1, [OutEvent.progress, OutEvent.errorGeneric])
  | Except.ok lesson =>
    let s2 := { s1 with last_lesson := some lesson, state := chs "lesson_generated" }
    (s2, [OutEvent.progress]
      ++ (if fmt = chs "chat" || fmt = chs "both" then [OutEvent.textChunks] else [])
      ++ (if fmt = chs "pdf" || fmt = chs "both" then [OutEvent.docPdf] else [])
      ++ (if fmt = chs "html" then [OutEvent.docHtml] else [])
      ++ [OutEvent.shareAsk])

/-- Model of the awaiting_teacher_name branch of handle_message
(src/bot.py 2408-2464): the inbound text is stripped at the top of the
handler; a text lower-casing to the word skip becomes the anonymous author;
when a lesson is pending it is recorded and saved (saved and pushed are the
results of the two best-effort store calls), the acknowledgement depends on
saved and pushed, the state returns to idle, and the follow-up menu message
is always sent last. -/
def handleTeacherName (saved pushed : Bool) (idGen createdAt : List Char)
    (rawText : List Char) (s : Session) :
    Session × List (List Char) × Option LessonRecord :=
  let text := pyStrip rawText
  let teacher_name := if pyLower text = chs "skip" then chs "Anonymous" else text
  match s.last_lesson with
  | some lesson =>
    let record := create_lesson_record s.params lesson (some teacher_name) true idGen createdAt
    let firstMsg :=
      if saved then
        chs "✅ *Shared with the community!*\n\nTeachers in "
          ++ s.params.country.getD (chs "the world")
          ++ chs " and beyond can now use your lesson."
          ++ (if pushed then chs "\n📍 Your lesson is now live on tooley.app!" else [])
          ++ chs "\nThank you for contributing to education worldwide! 🌍"
      else chs "Saved! (Note: Community sharing is being set up)"
    ({ s with state := chs "idle", pending_share := false },
      ([firstMsg, chs "What next?"], some record))
  | none =>
    ({ s with state := chs "idle", pending_share := false },
      ([chs "What next?"], none))

end Bot

/-!
Well-nestedness scan for the emitted HTML pieces (C10): a left-to-right
scan of the piece sequence tracking whether a list is open; it fails if a
list is opened twice, closed while absent, an item is emitted outside a
list, or any non-list piece is emitted while a list is open.
-/

/-- Scan the pieces from a given in_list state; some final-state on a valid
sequence, none on a violation. -/
def scanFrom : List HFrag → Bool → Option Bool
  | [], s => some s
  | HFrag.ulOpen :: r, s => if s then none else scanFrom r true
  | HFrag.ulClose :: r, s => if s then scanFrom r false else none
  | HFrag.li _ :: r, s => if s then scanFrom r true else none
  | HFrag.br :: r, s => if s then none else scanFrom r false
  | HFrag.h2 _ :: r, s => if s then none else scanFrom r false
  | HFrag.h1 _ :: r, s => if s then none else scanFrom r false
  | HFrag.pbold _ :: r, s => if s then none else scanFrom r false
  | HFrag.pnum _ :: r, s => if s then none else scanFrom r false
  | HFrag.para _ :: r, s => if s then none else scanFrom r false

/-- The piece is the list-opening tag. -/
def isOpenFrag : HFrag → Bool
  | HFrag.ulOpen => true
  | _ => false

/-- The piece is the list-closing tag. -/
def isCloseFrag : HFrag → Bool
  | HFrag.ulClose => true
  | _ => false

/-!
Concrete instances used by the claims.
-/

/-- Parameter set of the concrete scenario in the spec (section 8, item 6). -/
def c5req : Api.LessonRequest :=
  { subject := chs "Mathematics", topic := chs "Fractions", ages := chs "9-11",
    duration := chs "30", country := chs "Kenya", materials := chs "basic",
    style := chs "interactive", language := chs "en" }

/-- The user prompt api.py builds for that scenario (duration 30 parses, so
the builder succeeds; the timing oracle records the true float results). -/
def c5prompt : List Char :=
  match Api.build_lesson_prompt pyTimings30 c5req with
  | Except.ok s => s
  | Except.error _ => []

/-- The same request with a non-parseable duration. -/
def reqAbc : Api.LessonRequest :=
  { subject := chs "Mathematics", topic := chs "Fractions", ages := chs "9-11",
    duration := chs "abc", country := chs "Kenya", materials := chs "basic",
    style := chs "interactive", language := chs "en" }

/-- Wizard params with a corrupted free-text duration, for the bot builder. -/
def paramsAbc : Bot.BotParams :=
  { topic := some (chs "Fractions"), duration := some (chs "abc") }

/-- Empty wizard parameter dictionary. -/
def emptyBotParams : Bot.BotParams := {}

/-- A session sitting at the format question, about to generate. -/
def sessionAwaitingFormat : Bot.Session :=
  { state := chs "awaiting_format", params := emptyBotParams,
    last_lesson := none, pending_share := false }

/-- A session at the teacher-name question with a generated lesson pending. -/
def sessionAwaitingName : Bot.Session :=
  { state := chs "awaiting_teacher_name", params := emptyBotParams,
    last_lesson := some (chs "Lesson body"), pending_share := true }


/-!
Support lemmas about the string helpers.
-/
/-- Forcing a string into ASCII by replacing each non-ASCII character with a
fixed ASCII character yields an all-ASCII string. -/
theorem allAscii_force (r : Char) (hr : r.toNat < 128) (s : List Char) :
    allAscii (s.map (fun c => if c.toNat < 128 then c else r)) := by
  intro c hc
  rcases List.mem_map.1 hc with ⟨d, _, hd⟩
  by_cases h : d.toNat < 128
  · rw [if_pos h] at hd
    simpa [← hd] using h
  · rw [if_neg h] at hd
    simpa [← hd] using hr


/-- Accumulation law of the occurrence counter. -/
theorem countOccurGo_acc (pat : List Char) :
    ∀ (s : List Char) (acc : Nat), countOccurGo pat acc s = acc + countOccurGo pat 0 s := by
  intro s
  induction s with
  | nil => intro acc; simp [countOccurGo]
  | cons c t ih =>
    intro acc
    simp only [countOccurGo]
    by_cases hp : pat.isPrefixOf (c :: t)
    · rw [if_pos hp, if_pos hp, ih (acc + 1), ih (0 + 1)]
      omega
    · rw [if_neg hp, if_neg hp, ih acc]

/-- Head unfolding of the occurrence counter. -/
theorem countOccur_cons (pat : List Char) (c : Char) (t : List Char) :
    countOccur pat (c :: t) =
      (if pat.isPrefixOf (c :: t) then 1 else 0) + countOccur pat t := by
  simp only [countOccur, countOccurGo]
  by_cases hp : pat.isPrefixOf (c :: t)
  · rw [if_pos hp, if_pos hp, countOccurGo_acc]
  · rw [if_neg hp, if_neg hp]
    simp

/-- A prefix test only inspects the first pat.length characters. -/
theorem isPrefixOf_take (pat : List Char) :
    ∀ l : List Char, pat.isPrefixOf l = pat.isPrefixOf (l.take pat.length) := by
  induction pat with
  | nil => intro l; simp [List.isPrefixOf]
  | cons p ps ih =>
    intro l
    cases l with
    | nil => simp
    | cons c t =>
      simp only [List.isPrefixOf, List.length_cons, List.take_succ_cons]
      rw [ih t]

/-- A pattern longer than the text is never a prefix of it. -/
theorem isPrefixOf_false_of_long :
    ∀ (pat l : List Char), l.length < pat.length → pat.isPrefixOf l = false := by
  intro pat
  induction pat with
  | nil => intro l h; simp at h
  | cons p ps ih =>
    intro l h
    cases l with
    | nil => rfl
    | cons c t =>
      simp only [List.isPrefixOf]
      have ht : t.length < ps.length := by
        simp only [List.length_cons] at h
        omega
      rw [ih t ht, Bool.and_false]

/-- A prefix test against l ++ b only sees l when pat fits inside l. -/
theorem isPrefixOf_append_of_le (pat l b : List Char) (h : pat.length ≤ l.length) :
    pat.isPrefixOf (l ++ b) = pat.isPrefixOf l := by
  rw [isPrefixOf_take pat (l ++ b), isPrefixOf_take pat l,
    List.take_append_eq_append_take]
  have h0 : pat.length - l.length = 0 := by omega
  rw [h0]
  simp

/-- The Boolean boundary check implies the per-suffix straddle-freeness it
was designed for. -/
theorem straddleFree_spec (pat a b : List Char) (hb : straddleFree pat a b = true) :
    ∀ s : List Char, s <:+ a → s ≠ [] → s.length < pat.length →
      pat.isPrefixOf (s ++ b) = false := by
  intro s hs hne hlen
  have hk := (List.all_eq_true.mp hb) s.length (List.mem_range.mpr hlen)
  have hk0 : (s.length == 0) = false := by
    cases s with
    | nil => exact absurd rfl hne
    | cons x xs => simp
  rw [hk0, Bool.false_or, Bool.not_eq_true'] at hk
  have hsw : (a.reverse.take s.length).reverse = s := by
    rcases hs with ⟨p, hp⟩
    subst hp
    rw [List.reverse_append]
    have hl : s.length = s.reverse.length := (List.length_reverse s).symm
    rw [hl, List.take_left, List.reverse_reverse]
  rw [hsw] at hk
  rw [isPrefixOf_take pat (s ++ b.take pat.length)] at hk
  rw [isPrefixOf_take pat (s ++ b)]
  rw [List.take_append_eq_append_take] at hk ⊢
  rw [List.take_take] at hk
  have hmin : min (pat.length - s.length) pat.length = pat.length - s.length := by omega
  rw [hmin] at hk
  exact hk

/-- Occurrence counting distributes over concatenation when no occurrence
straddles the boundary. -/
theorem countOccur_append (pat a b : List Char)
    (h : ∀ s : List Char, s <:+ a → s ≠ [] → s.length < pat.length →
      pat.isPrefixOf (s ++ b) = false) :
    countOccur pat (a ++ b) = countOccur pat a + countOccur pat b := by
  induction a with
  | nil => simp [countOccur, countOccurGo]
  | cons c t ih =>
    have hsub : ∀ s : List Char, s <:+ t → s ≠ [] → s.length < pat.length →
        pat.isPrefixOf (s ++ b) = false := by
      intro s hs hne hlen
      exact h s (hs.trans (List.suffix_cons c t)) hne hlen
    have hhead : pat.isPrefixOf (c :: (t ++ b)) = pat.isPrefixOf (c :: t) := by
      by_cases hlen : pat.length ≤ (c :: t).length
      · have h2 := isPrefixOf_append_of_le pat (c :: t) b hlen
        simpa using h2
      · push_neg at hlen
        have h1 := h (c :: t) (List.suffix_refl _) (by simp) hlen
        have h2 : pat.isPrefixOf (c :: t) = false :=
          isPrefixOf_false_of_long pat (c :: t) hlen
        simp only [List.cons_append] at h1
        rw [h1, h2]
    rw [List.cons_append, countOccur_cons, countOccur_cons, ih hsub, hhead]
    omega

/-- Packaged form: the Boolean boundary check suffices for the splitting law. -/
theorem countOccur_append_safe (pat a b : List Char)
    (hb : straddleFree pat a b = true) :
    countOccur pat (a ++ b) = countOccur pat a + countOccur pat b :=
  countOccur_append pat a b (straddleFree_spec pat a b hb)

/-- Splitting law for seven concatenated pieces (right-associated), given the
six boundary checks. -/
theorem countOccur_parts7 (pat p1 p2 p3 p4 p5 p6 p7 : List Char)
    (h1 : straddleFree pat p1 (p2 ++ (p3 ++ (p4 ++ (p5 ++ (p6 ++ p7))))) = true)
    (h2 : straddleFree pat p2 (p3 ++ (p4 ++ (p5 ++ (p6 ++ p7)))) = true)
    (h3 : straddleFree pat p3 (p4 ++ (p5 ++ (p6 ++ p7))) = true)
    (h4 : straddleFree pat p4 (p5 ++ (p6 ++ p7)) = true)
    (h5 : straddleFree pat p5 (p6 ++ p7) = true)
    (h6 : straddleFree pat p6 p7 = true) :
    countOccur pat (p1 ++ (p2 ++ (p3 ++ (p4 ++ (p5 ++ (p6 ++ p7)))))) =
      countOccur pat p1 + countOccur pat p2 + countOccur pat p3 + countOccur pat p4 +
      countOccur pat p5 + countOccur pat p6 + countOccur pat p7 := by
  rw [countOccur_append_safe _ _ _ h1, countOccur_append_safe _ _ _ h2,
    countOccur_append_safe _ _ _ h3, countOccur_append_safe _ _ _ h4,
    countOccur_append_safe _ _ _ h5, countOccur_append_safe _ _ _ h6]
  omega

/-!
Support lemmas for the list-nesting scan of the HTML pieces.
-/

/-- The scan distributes over concatenation. -/
theorem scanFrom_append :
    ∀ (xs ys : List HFrag) (s : Bool),
      scanFrom (xs ++ ys) s = (scanFrom xs s).bind (fun m => scanFrom ys m) := by
  intro xs
  induction xs with
  | nil => intro ys s; simp [scanFrom]
  | cons f r ih =>
    intro ys s
    cases f <;> by_cases hs : s <;>
      simp [scanFrom, hs, ih]

/-- The pieces emitted for one line scan cleanly from the current in_list
state to the state the loop continues with. -/
theorem lineFrags_scan (l : List Char) (s : Bool) :
    scanFrom (lineFrags l s).1 s = some (lineFrags l s).2 := by
  cases s <;> simp only [lineFrags] <;> split_ifs <;> simp_all [scanFrom, closeIf]

/-- The whole loop, started with no open list, scans cleanly and ends with
no open list. -/
theorem goFrags_scan :
    ∀ (ls : List (List Char)) (s : Bool), scanFrom (goFrags ls s) s = some false := by
  intro ls
  induction ls with
  | nil => intro s; cases s <;> simp [goFrags, closeIf, scanFrom]
  | cons l ls ih =>
    intro s
    simp only [goFrags]
    rw [scanFrom_append, lineFrags_scan]
    simp [ih]

/-- A clean scan balances the open and close counts against the state
change: opens plus the starting state equal closes plus the final state. -/
theorem scan_balances :
    ∀ (fs : List HFrag) (s s' : Bool), scanFrom fs s = some s' →
      List.countP isOpenFrag fs + (if s then 1 else 0) =
        List.countP isCloseFrag fs + (if s' then 1 else 0) := by
  intro fs
  induction fs with
  | nil =>
    intro s s' h
    simp only [scanFrom, Option.some.injEq] at h
    subst h
    simp
  | cons f r ih =>
    intro s s' h
    cases f <;> cases s <;>
      simp only [scanFrom, if_true, if_false, Bool.false_eq_true, reduceIte] at h <;>
      first
      | exact absurd h (by simp)
      | (have h2 := ih _ _ h
         simp only [List.countP_cons, isOpenFrag, isCloseFrag] at h2 ⊢
         simp at h2 ⊢
         omega)

/-!
Claim theorems.
-/

/-- C1 counterexample: at the concrete request with duration "abc" (which
does not parse as a number), api.py build_lesson_prompt raises the int()
ValueError instead of substituting the documented default of 45 and
returning a prompt string. -/
theorem c1_duration_counterexample :
    pyInt? (chs "abc") = none ∧
    Api.build_lesson_prompt pyTimings30 reqAbc = Except.error () := by
  exact ⟨by decide, by rfl⟩

/-- C1 amended: for every request whose duration does not parse as a number,
api.py build_lesson_prompt propagates the parse error (no default of 45 is
substituted, for any timing semantics); bot.py build_lesson_prompt never
parses the duration at all — it returns a prompt string with the duration
text interpolated verbatim and computes no sub-section timings, as the
concrete corrupted-duration request shows. -/
theorem c1_duration_amended :
    (∀ (timings : Int → Int × Int × Int) (p : Api.LessonRequest) (d : List Char),
      pyInt? d = none →
      Api.build_lesson_prompt timings { p with duration := d } = Except.error ()) ∧
    containsSub (chs "Class duration: abc minutes") (Bot.build_lesson_prompt paramsAbc) = true := by
  constructor
  · intro timings p d hd
    simp [Api.build_lesson_prompt, hd]
  · decide

/-- C1 witness: the amended theorem applied at the concrete request with
duration "abc". -/
theorem c1_duration_witness :
    Api.build_lesson_prompt pyTimings30 { reqAbc with duration := chs "abc" } = Except.error () :=
  c1_duration_amended.1 pyTimings30 reqAbc (chs "abc") (by decide)

/-- C2 counterexample: when the full branded rendering raises and the
fallback rendering also raises, create_lesson_pdf propagates the exception
(Except.error) instead of returning a well-defined no-document result; there
is no third tier. -/
theorem c2_pdf_counterexample :
    Bot.create_lesson_pdf (δ := Unit) (Except.error ())
      (fun _ => Except.error ()) [] = Except.error () := by
  rfl

/-- C2 amended: create_lesson_pdf has two tiers, not three: the full branded
layout is returned when it renders, and on its exception the single fallback
document is attempted over the processed content — the first 50 lines, each
ASCII-forced and truncated to 90 characters — with whatever outcome that
attempt has (including its exception) returned to the caller. -/
theorem c2_pdf_amended :
    ∀ (δ : Type) (r2 : List (List Char) → Except Unit δ) (content : List Char) (d : δ),
      Bot.create_lesson_pdf (Except.ok d) r2 content = Except.ok d ∧
      Bot.create_lesson_pdf (Except.error ()) r2 content = r2 (fallbackLines content) ∧
      (fallbackLines content).length ≤ 50 ∧
      (∀ l ∈ fallbackLines content, l.length ≤ 90 ∧ allAscii l) := by
  intro δ r2 content d
  refine ⟨rfl, rfl, ?_, ?_⟩
  · simp only [fallbackLines, List.length_map]
    exact le_trans (List.length_take_le 50 _) (le_refl 50)
  · intro l hl
    simp only [fallbackLines, List.mem_map] at hl
    rcases hl with ⟨orig, _, horig⟩
    constructor
    · rw [← horig]
      exact le_trans (List.length_take_le 90 _) (le_refl 90)
    · intro c hc
      rw [← horig] at hc
      have hc2 := List.mem_of_mem_take hc
      exact allAscii_force '?' (by decide) orig c hc2

/-- C2 witness: the amended theorem applied to a one-line non-ASCII content
and the always-failing fallback oracle. -/
theorem c2_pdf_witness :
    Bot.create_lesson_pdf (δ := Unit) (Except.error ())
        (fun _ => Except.error ()) (chs "é") = Except.error () ∧
    (chs "?").length ≤ 90 ∧ allAscii (chs "?") := by
  have h := c2_pdf_amended Unit (fun _ => Except.error ()) (chs "é") ()
  refine ⟨h.2.1, h.2.2.2 (chs "?") ?_⟩
  decide

/-- C3 counterexample: at a session sitting at the format question, a failed
generation leaves the state at awaiting_format — the wizard does not
transition back to idle. -/
theorem c3_failure_counterexample :
    (Bot.handleFormatSelection (Except.error ()) (chs "pdf") sessionAwaitingFormat).1.state
        = chs "awaiting_format" ∧
    (Bot.handleFormatSelection (Except.error ()) (chs "pdf") sessionAwaitingFormat).1.state
        ≠ chs "idle" := by
  exact ⟨by decide, by decide⟩

/-- C3 amended: when the generation call raises, the wizard reports exactly
the generic failure message after the progress edit and makes no further
generation attempt, but the session state is left unchanged rather than
being set back to idle. -/
theorem c3_failure_amended :
    ∀ (e : Unit) (fmt : List Char) (s : Bot.Session),
      (Bot.handleFormatSelection (Except.error e) fmt s).1.state = s.state ∧
      (Bot.handleFormatSelection (Except.error e) fmt s).1.last_lesson = s.last_lesson ∧
      (Bot.handleFormatSelection (Except.error e) fmt s).2 =
        [Bot.OutEvent.progress, Bot.OutEvent.errorGeneric] := by
  intro e fmt s
  exact ⟨rfl, rfl, rfl⟩

/-- C4 counterexample: on the line "Materials:" the PDF renderer takes its
colon-label branch (bold slate section label) while the HTML renderer emits
a plain paragraph — the two targets do not assign the same block type. -/
theorem c4_blocktype_counterexample :
    pdfClassifyLine (chs "Materials:") = BlockType.colonLabel ∧
    htmlClassifyLine (chs "Materials:") = BlockType.para ∧
    BlockType.colonLabel ≠ BlockType.para := by
  exact ⟨by decide, by decide, by decide⟩

/-- C4 amended: the two renderers assign the same block type to every line
except those captured by the PDF-only colon-label branch (a stripped line
ending in a colon, shorter than 60 characters, not starting with a dash,
that is not blank, a heading or a bold line). -/
theorem c4_blocktype_amended :
    ∀ raw : List Char, pdfClassifyLine raw ≠ BlockType.colonLabel →
      pdfClassifyLine raw = htmlClassifyLine raw := by
  intro raw h
  simp only [pdfClassifyLine, htmlClassifyLine] at h ⊢
  split_ifs at h ⊢ <;> simp_all

/-- C4 witness: the amended theorem applied to a bullet line. -/
theorem c4_blocktype_witness :
    pdfClassifyLine (chs "- item") = htmlClassifyLine (chs "- item") :=
  c4_blocktype_amended (chs "- item") (by decide)

/-- C5 counterexample: for the concrete scenario parameters the api.py user
prompt exists (duration 30 parses) but does not contain the substring
"30-minute" required by the claim. -/
theorem c5_prompt_counterexample :
    Api.build_lesson_prompt pyTimings30 c5req = Except.ok c5prompt ∧
    containsSub (chs "30-minute") c5prompt = false := by
  exact ⟨rfl, by decide⟩

/-- C5 amended: for the concrete scenario parameters the api.py user prompt
contains "30 minutes" (not "30-minute"), "Fractions", "Kenya" and
"Basic materials", and contains, in order, the eight section headers the
builder actually emits: Learning Objectives, Materials Needed, Lesson
Introduction, Main Activity, Wrap-Up & Assessment, Differentiation Tips,
Comprehension Questions, Teacher Tips. -/
theorem c5_prompt_amended :
    Api.build_lesson_prompt pyTimings30 c5req = Except.ok c5prompt ∧
    containsSub (chs "30 minutes") c5prompt = true ∧
    containsSub (chs "Fractions") c5prompt = true ∧
    containsSub (chs "Kenya") c5prompt = true ∧
    containsSub (chs "Basic materials") c5prompt = true ∧
    orderedPats [chs "## Learning Objectives", chs "## Materials Needed",
      chs "## Lesson Introduction (", chs "## Main Activity (",
      chs "## Wrap-Up & Assessment (", chs "## Differentiation Tips",
      chs "## Comprehension Questions", chs "## Teacher Tips"] c5prompt = true := by
  exact ⟨rfl, by decide, by decide, by decide, by decide, by decide⟩

/-- A replacement whose pattern is neither empty nor the single character c
leaves the one-character string c unchanged. -/
theorem replaceAll_single_ne (old new : List Char) (c : Char)
    (hnil : old ≠ []) (hne : old ≠ [c]) : replaceAll old new [c] = [c] := by
  simp only [replaceAll, if_neg hnil]
  have hp : old.isPrefixOf [c] = false := by
    cases old with
    | nil => exact absurd rfl hnil
    | cons o os =>
      cases os with
      | nil =>
        by_cases hoc : o = c
        · exact absurd (by rw [hoc]) hne
        · simp [List.isPrefixOf, hoc]
      | cons o2 os2 => simp [List.isPrefixOf]
  simp [replaceGo, hp]

/-- A table none of whose patterns is the single character c leaves the
one-character string c unchanged. -/
theorem applyTable_single (tbl : List (List Char × List Char)) (c : Char)
    (h : ∀ p ∈ tbl, p.1 ≠ [] ∧ p.1 ≠ [c]) : applyTable tbl [c] = [c] := by
  induction tbl with
  | nil => rfl
  | cons p r ih =>
    simp only [applyTable, List.foldl_cons]
    have h1 := h p (by simp)
    rw [replaceAll_single_ne p.1 p.2 c h1.1 h1.2]
    exact ih (fun q hq => h q (by simp [hq]))

/-- C6 counterexample: the bot sanitizer maps the unmapped non-ASCII
character lambda to a question mark, not to a space. -/
theorem c6_ascii_counterexample :
    Bot.safe_text (chs "λ") = chs "?" ∧ chs "?" ≠ chs " " := by
  exact ⟨by decide, by decide⟩

/-- C6 amended: both sanitizers return pure-ASCII strings; a non-ASCII
character outside the replacement table becomes a space under api.py
ascii_only but a question mark under bot.py _safe_text (the ascii-replace
error handler). -/
theorem c6_ascii_amended :
    (∀ s, allAscii (Bot.safe_text s)) ∧
    (∀ s, allAscii (Api.ascii_only s)) ∧
    (∀ c : Char, 128 ≤ c.toNat → (∀ p ∈ botReplacements, p.1 ≠ [c]) →
      Bot.safe_text [c] = chs "?") ∧
    (∀ c : Char, 128 ≤ c.toNat → (∀ p ∈ apiReplacements, p.1 ≠ [c]) →
      Api.ascii_only [c] = chs " ") := by
  have hbotne : ∀ p ∈ botReplacements, p.1 ≠ [] := by decide
  have hapine : ∀ p ∈ apiReplacements, p.1 ≠ [] := by decide
  refine ⟨?_, ?_, ?_, ?_⟩
  · intro s
    exact allAscii_force '?' (by decide) (applyTable botReplacements s)
  · intro s
    exact allAscii_force ' ' (by decide) (applyTable apiReplacements s)
  · intro c hc hkeys
    have ht := applyTable_single botReplacements c
      (fun p hp => ⟨hbotne p hp, hkeys p hp⟩)
    have hlt : ¬ c.toNat < 128 := by omega
    show (applyTable botReplacements [c]).map
      (fun d => if d.toNat < 128 then d else '?') = chs "?"
    rw [ht]
    simp [hlt, chs]
  · intro c hc hkeys
    have ht := applyTable_single apiReplacements c
      (fun p hp => ⟨hapine p hp, hkeys p hp⟩)
    have hlt : ¬ c.toNat < 128 := by omega
    show (applyTable apiReplacements [c]).map
      (fun d => if d.toNat < 128 then d else ' ') = chs " "
    rw [ht]
    simp [hlt, chs]

/-- C6 witness: the amended theorem applied at the unmapped character
lambda. -/
theorem c6_ascii_witness :
    Bot.safe_text ['λ'] = chs "?" ∧ Api.ascii_only ['λ'] = chs " " := by
  exact ⟨c6_ascii_amended.2.2.1 'λ' (by decide) (by decide),
    c6_ascii_amended.2.2.2 'λ' (by decide) (by decide)⟩

/-- C7 confirmed: a store read that raises, or a write that fails, makes
save_lesson_to_github return False rather than raising; and the teacher-name
share flow always ends at the "What next?" follow-up menu with the session
back at idle, whatever the save and push results were. -/
theorem c7_persistence_failure :
    (∀ (lesson : LessonRecord) (putRes : List LessonRecord → Except Unit Unit),
      Bot.save_lesson_to_github true GetResult.exn putRes lesson = false) ∧
    (∀ (lesson : LessonRecord) (prev : List LessonRecord) (sha : List Char),
      Bot.save_lesson_to_github true (GetResult.ok200 prev sha)
        (fun _ => Except.error ()) lesson = false) ∧
    (∀ (saved pushed : Bool) (idGen createdAt rawText : List Char) (s : Bot.Session),
      (Bot.handleTeacherName saved pushed idGen createdAt rawText s).2.1.getLast?
          = some (chs "What next?") ∧
      (Bot.handleTeacherName saved pushed idGen createdAt rawText s).1.state
          = chs "idle") := by
  refine ⟨fun lesson putRes => rfl, fun lesson prev sha => rfl, ?_⟩
  intro saved pushed idGen createdAt rawText s
  cases hl : s.last_lesson with
  | some lesson => simp [Bot.handleTeacherName, hl]
  | none => simp [Bot.handleTeacherName, hl]

/-- C8 confirmed: every successful append writes exactly the previously read
list with the new record inserted at index 0 and then truncated to the cap
(1000 for the lesson repository, 50 for the website carousel): the new
record is the head, the written length never exceeds the cap, and what is
dropped is precisely the tail beyond the cap — the oldest entries. -/
theorem c8_append_truncate :
    ∀ (lesson carousel : LessonRecord) (prev prevW : List LessonRecord),
      savedLessonsWritten lesson prev = lesson :: prev.take 999 ∧
      (savedLessonsWritten lesson prev).head? = some lesson ∧
      (savedLessonsWritten lesson prev).length ≤ 1000 ∧
      prev.take 999 ++ prev.drop 999 = prev ∧
      websiteLessonsWritten carousel prevW = carousel :: prevW.take 49 ∧
      (websiteLessonsWritten carousel prevW).head? = some carousel ∧
      (websiteLessonsWritten carousel prevW).length ≤ 50 ∧
      prevW.take 49 ++ prevW.drop 49 = prevW := by
  intro lesson carousel prev prevW
  have h1000 : (1000 : Nat) = 999 + 1 := rfl
  have h50 : (50 : Nat) = 49 + 1 := rfl
  have e1 : savedLessonsWritten lesson prev = lesson :: prev.take 999 := by
    show (lesson :: prev).take 1000 = _
    rw [h1000, List.take_succ_cons]
  have e2 : websiteLessonsWritten carousel prevW = carousel :: prevW.take 49 := by
    show (carousel :: prevW).take 50 = _
    rw [h50, List.take_succ_cons]
  refine ⟨e1, by rw [e1]; rfl, ?_, List.take_append_drop 999 prev,
    e2, by rw [e2]; rfl, ?_, List.take_append_drop 49 prevW⟩
  · rw [e1]
    simp only [List.length_cons, List.length_take]
    omega
  · rw [e2]
    simp only [List.length_cons, List.length_take]
    omega

/-- C9 counterexample: the entered text " John " is non-empty and does not
lower-case to skip, yet the stored author name is the stripped "John", not
the entered string verbatim (the handler strips the inbound message first). -/
theorem c9_teacher_name_counterexample :
    pyLower (chs " John ") ≠ chs "skip" ∧ chs " John " ≠ ([] : List Char) ∧
    ((Bot.handleTeacherName true true (chs "id0") (chs "t0") (chs " John ")
        sessionAwaitingName).2.2.map LessonRecord.teacher_name) = some (chs "John") ∧
    chs "John" ≠ chs " John " := by
  exact ⟨by decide, by decide, by decide, by decide⟩

/-- C9 amended: the entered text is first stripped of surrounding
whitespace; if the stripped text lower-cases to skip the stored author name
is Anonymous; if the stripped text is empty the stored author name is
Anonymous (the or-Anonymous fallback on the falsy empty string); otherwise
the stored author name is the stripped text verbatim. -/
theorem c9_teacher_name_amended :
    ∀ (saved pushed : Bool) (idGen createdAt rawText lesson : List Char)
      (s : Bot.Session), s.last_lesson = some lesson →
      ((pyLower (pyStrip rawText) = chs "skip" →
        ((Bot.handleTeacherName saved pushed idGen createdAt rawText s).2.2.map
          LessonRecord.teacher_name) = some (chs "Anonymous")) ∧
       (pyStrip rawText = [] →
        ((Bot.handleTeacherName saved pushed idGen createdAt rawText s).2.2.map
          LessonRecord.teacher_name) = some (chs "Anonymous")) ∧
       (pyStrip rawText ≠ [] → pyLower (pyStrip rawText) ≠ chs "skip" →
        ((Bot.handleTeacherName saved pushed idGen createdAt rawText s).2.2.map
          LessonRecord.teacher_name) = some (pyStrip rawText))) := by
  intro saved pushed idGen createdAt rawText lesson s hl
  refine ⟨?_, ?_, ?_⟩
  · intro hskip
    simp [Bot.handleTeacherName, hl, hskip, Bot.create_lesson_record]
  · intro hblank
    simp [Bot.handleTeacherName, hl, hblank, Bot.create_lesson_record, pyLower, chs]
  · intro hne hskip
    simp [Bot.handleTeacherName, hl, hskip, hne, Bot.create_lesson_record]

/-- C9 witness: the amended theorem applied at the entered text " Maria ". -/
theorem c9_teacher_name_witness :
    ((Bot.handleTeacherName true true (chs "id0") (chs "t0") (chs " Maria ")
        sessionAwaitingName).2.2.map LessonRecord.teacher_name) = some (chs "Maria") := by
  have h := c9_teacher_name_amended true true (chs "id0") (chs "t0")
    (chs " Maria ") (chs "Lesson body") sessionAwaitingName rfl
  have h2 := h.2.2 (by decide) (by decide)
  rw [h2]
  decide

/-- C10 counterexample: with the lesson content "- <ul>" (and no
parameters) the HTML document contains two occurrences of the list-opening
tag but only one of the list-closing tag, because the bullet text is
interpolated into the list item verbatim. -/
theorem c10_ul_counterexample :
    countOccur (chs "<ul>") (Bot.create_lesson_html (chs "- <ul>") emptyBotParams) = 2 ∧
    countOccur (chs "</ul>") (Bot.create_lesson_html (chs "- <ul>") emptyBotParams) = 1 := by
  have hdoc : Bot.create_lesson_html (chs "- <ul>") emptyBotParams =
      shellA ++ (chs "Lesson Plan" ++ (shellB ++ (Bot.specsHtml emptyBotParams ++
        (shellC ++ (contentHtml (chs "- <ul>") ++ shellD))))) := by
    simp [Bot.create_lesson_html, emptyBotParams, List.append_assoc]
  constructor
  · rw [hdoc, countOccur_parts7 _ _ _ _ _ _ _ _ (by decide) (by decide) (by decide)
      (by decide) (by decide) (by decide)]
    decide
  · rw [hdoc, countOccur_parts7 _ _ _ _ _ _ _ _ (by decide) (by decide) (by decide)
      (by decide) (by decide) (by decide)]
    decide

/-- C10 amended: at the level of the pieces the conversion loop emits, every
list it opens is closed (including at end of input) and every list item is
emitted while a list is open — the scan of the emitted pieces succeeds from
the closed state and ends closed — and consequently the loop emits exactly
as many list-opening as list-closing tags.  The substring-count form of the
claim holds only when the lesson text does not itself contain literal list
tags, since line content is interpolated verbatim. -/
theorem c10_ul_amended :
    ∀ content : List Char,
      scanFrom (contentFrags content) false = some false ∧
      List.countP isOpenFrag (contentFrags content) =
        List.countP isCloseFrag (contentFrags content) := by
  intro content
  have h : scanFrom (contentFrags content) false = some false :=
    goFrags_scan (pySplitCh '\n' content) false
  refine ⟨h, ?_⟩
  have h2 := scan_balances (contentFrags content) false false h
  simpa using h2
